import Mathlib

/-!
Verification development for the `ga-eight-queens` repository.

The repository is a Python 2 genetic-algorithm solver for the N-queens
problem, with two core modules:

* `genetics/genome.py` — class `Genome` with fields `numberN` (board and
  chromosome length) and `chromosome` (list of Python ints, the per-column
  row values), and methods `calculateFitness`, `conflict`, `crossOver`,
  `mutate`.
* `genetics/population.py` — class `Population` with fields `fenotypes`,
  `generation`, `elitism`, `elite_len`, `p_c`, `p_m`, and methods
  `initRandomPopulation`, `evolve`, `selection`, `best_solution`.

The embedding below is a shallow one: Python ints become `Int` (indices and
sizes that are always non-negative become `Nat`), Python floats become `ℚ`,
list objects become `List`, and every call to the ambient random source
(`randint`, `random`) becomes an explicit parameter carrying the drawn
value.  A Python run that raises an exception is modelled by an
`Option`-returning function evaluating to `none`.
-/

/-- Embedding of class `Genome` (genome.py): `numberN` is the board and
chromosome length set by `__init__` to `len(chromosome)`, and `chromosome`
is the list of per-column row values (Python ints, hence `Int`). -/
structure Genome where
  numberN : Nat
  chromosome : List Int
deriving DecidableEq

/-- Embedding of Python `range(lo, hi)`: the list `[lo, lo+1, ..., hi-1]`,
empty when `hi ≤ lo`. -/
def pyRange (lo hi : Nat) : List Nat :=
  List.range' lo (hi - lo)

/-- Embedding of `Genome.conflict(self, row, column)` (genome.py lines
37-54): scans `i` over `range(row+1, self.numberN)` and returns `True` as
soon as `self.chromosome[i] == column`, or
`self.chromosome[i] - column == i - row`, or
`self.chromosome[i] - column == row - i`; the early-`return` loop is the
Boolean `any` of the three-way disjunction.  The source indexes
`self.chromosome[i]` with `i < numberN`; the embedding uses `getD _ 0`,
which agrees with the source whenever `chromosome.length = numberN`. -/
def Genome.conflict (g : Genome) (row : Nat) (column : Int) : Bool :=
  (pyRange (row + 1) g.numberN).any fun i =>
    g.chromosome.getD i 0 == column
      || g.chromosome.getD i 0 - column == (i : Int) - (row : Int)
      || g.chromosome.getD i 0 - column == (row : Int) - (i : Int)

/-- Embedding of `Genome.calculateFitness(self)` (genome.py lines 28-35):
a counter starting at 0 is incremented once for every
`i in range(self.numberN)` with `self.conflict(i, self.chromosome[i])`
true, i.e. it counts the indices satisfying that predicate. -/
def Genome.calculateFitness (g : Genome) : Nat :=
  (List.range g.numberN).countP fun i => g.conflict i (g.chromosome.getD i 0)

/-- Embedding of `Genome.crossOver(self, genome2)` (genome.py lines 56-65).
The source draws `crossPoint = randint(0, self.numberN - 1)`; here the
drawn value is the explicit argument `crossPoint`.  The simultaneous slice
assignment first evaluates the pair of old suffixes and then installs
`self`'s old suffix into `genome2` and `genome2`'s old suffix into `self`;
the method returns `(self, genome2)` in that order.  Neither `numberN`
field is touched. -/
def Genome.crossOver (g1 g2 : Genome) (crossPoint : Nat) : Genome × Genome :=
  (⟨g1.numberN, g1.chromosome.take crossPoint ++ g2.chromosome.drop crossPoint⟩,
   ⟨g2.numberN, g2.chromosome.take crossPoint ++ g1.chromosome.drop crossPoint⟩)

/-- Embedding of `Genome.mutate(self)` (genome.py lines 67-72).  The source
draws `index = randint(0, self.numberN - 1)` and
`newValue = randint(0, self.numberN - 1)` — note that the second draw also
ranges over `[0, numberN - 1]`, not over the row range `[1, numberN]` used
by `Population.initRandomPopulation` — and then executes
`self.chromosome[index] = newValue`.  The two drawn values are the explicit
arguments here. -/
def Genome.mutate (g : Genome) (index : Nat) (newValue : Int) : Genome :=
  ⟨g.numberN, g.chromosome.set index newValue⟩

/-- State-passing embedding of `Genome.conflict`: the body of `conflict`
only reads `self.numberN` and `self.chromosome` and performs no attribute
assignment, so the threaded object state is returned unchanged next to the
Boolean result. -/
def Genome.conflictSt (g : Genome) (row : Nat) (column : Int) : Bool × Genome :=
  (g.conflict row column, g)

/-- State-passing embedding of the loop in `Genome.calculateFitness`: the
counter `conflicts` and the object state are threaded through the iteration
over the index list; each iteration calls `conflictSt` on the current
state. -/
def calcFitnessLoop : Genome → List Nat → Nat → Nat × Genome
  | g, [], conflicts => (conflicts, g)
  | g, i :: rest, conflicts =>
    calcFitnessLoop (Genome.conflictSt g i (g.chromosome.getD i 0)).2 rest
      (if (Genome.conflictSt g i (g.chromosome.getD i 0)).1 then conflicts + 1
       else conflicts)

/-- State-passing embedding of `Genome.calculateFitness(self)`: runs the
threaded loop over `range(self.numberN)` with the counter starting at 0 and
returns the final counter together with the final object state. -/
def Genome.calculateFitnessSt (g : Genome) : Nat × Genome :=
  calcFitnessLoop g (List.range g.numberN) 0

/-- Predicate written from the spec's wording (§4.1): queens at rows
`ri, rj` in columns `i, j` attack each other iff `row_i == row_j`, or
`row_j - row_i == j - i`, or `row_j - row_i == i - j`. -/
def specAttacks (ri : Int) (i : Nat) (rj : Int) (j : Nat) : Prop :=
  rj = ri ∨ rj - ri = (j : Int) - (i : Int) ∨ rj - ri = (i : Int) - (j : Int)

instance (ri : Int) (i : Nat) (rj : Int) (j : Nat) : Decidable (specAttacks ri i rj j) :=
  inferInstanceAs (Decidable (_ ∨ _ ∨ _))

/-- Spec-side predicate: column `i` holds a queen attacked by the queen of
at least one later column `j > i`. -/
def specAttackedLater (chrom : List Int) (i : Nat) : Prop :=
  ∃ j ∈ Finset.Ioo i chrom.length, specAttacks (chrom.getD i 0) i (chrom.getD j 0) j

instance (chrom : List Int) (i : Nat) : Decidable (specAttackedLater chrom i) :=
  inferInstanceAs (Decidable (∃ j ∈ Finset.Ioo i chrom.length,
    specAttacks (chrom.getD i 0) i (chrom.getD j 0) j))

/-- Spec-side count: the number of columns whose queen is attacked by a
later-column queen. -/
def specConflictCount (chrom : List Int) : Nat :=
  ((Finset.range chrom.length).filter fun i => specAttackedLater chrom i).card

/-- Count written from the spec's wording (§4.1): the number of attacking
PAIRS, each unordered pair counted once via its ordered representative
`i < j`. -/
def specPairCount (chrom : List Int) : Nat :=
  ((Finset.range chrom.length ×ˢ Finset.range chrom.length).filter fun p =>
    p.1 < p.2 ∧ specAttacks (chrom.getD p.1 0) p.1 (chrom.getD p.2 0) p.2).card

/-- The known 4×4 solution chromosome `[2, 4, 1, 3]` from the spec (§8). -/
def gSol : Genome := ⟨4, [2, 4, 1, 3]⟩

/-- The all-same-row 4×4 chromosome `[1, 1, 1, 1]` from the spec (§8). -/
def gRow : Genome := ⟨4, [1, 1, 1, 1]⟩

theorem pyRange_mem (lo hi m : Nat) : m ∈ pyRange lo hi ↔ lo ≤ m ∧ m < hi := by
  unfold pyRange
  rw [List.mem_range'_1]
  omega

theorem conflict_iff_specAttackedLater (g : Genome)
    (h : g.chromosome.length = g.numberN) (i : Nat) :
    g.conflict i (g.chromosome.getD i 0) = true ↔ specAttackedLater g.chromosome i := by
  unfold Genome.conflict specAttackedLater specAttacks
  rw [List.any_eq_true]
  constructor
  · rintro ⟨j, hj, hp⟩
    rw [pyRange_mem] at hj
    refine ⟨j, ?_, ?_⟩
    · rw [Finset.mem_Ioo]; omega
    · simpa [beq_iff_eq, or_assoc] using hp
  · rintro ⟨j, hj, hp⟩
    rw [Finset.mem_Ioo] at hj
    refine ⟨j, ?_, ?_⟩
    · rw [pyRange_mem]; omega
    · simpa [beq_iff_eq, or_assoc] using hp

theorem card_filter_range_eq_countP (n : Nat) (p : Nat → Prop) [DecidablePred p] :
    ((Finset.range n).filter p).card = (List.range n).countP fun i => decide (p i) := by
  induction n with
  | zero => simp
  | succ n ih =>
    rw [Finset.range_succ, List.range_succ, List.countP_append, Finset.filter_insert]
    by_cases h : p n
    · rw [if_pos h, Finset.card_insert_of_not_mem (by simp)]
      simp [h, ih]
    · rw [if_neg h]
      simp [h, ih]

theorem calcFitnessLoop_eq (g : Genome) (l : List Nat) (c : Nat) :
    calcFitnessLoop g l c =
      (c + l.countP (fun i => g.conflict i (g.chromosome.getD i 0)), g) := by
  induction l generalizing c with
  | nil => simp [calcFitnessLoop]
  | cons i rest ih =>
    simp only [calcFitnessLoop, Genome.conflictSt]
    rw [ih, List.countP_cons]
    simp only [Prod.mk.injEq]
    refine ⟨?_, trivial⟩
    by_cases hb : g.conflict i (g.chromosome.getD i 0) = true
    · rw [if_pos hb, if_pos hb]; omega
    · rw [if_neg hb, if_neg hb]; omega

/-- C1 counterexample: on the all-same-row board `[1, 1, 1, 1]` the code
returns 3, not the 6 attacking pairs the claim states (while the
pair count in the spec's sense is indeed 6, and the code does return 0 on
the solution `[2, 4, 1, 3]`). -/
theorem calculateFitness_counts_columns_not_pairs :
    Genome.calculateFitness gRow = 3 ∧ Genome.calculateFitness gRow ≠ 6 ∧
      specPairCount gRow.chromosome = 6 ∧ Genome.calculateFitness gSol = 0 := by
  decide

/-- C1 (amended): `calculateFitness` returns the number of COLUMNS whose
queen is attacked by at least one queen in a later column (same row or
either diagonal), not the number of attacking pairs; in particular it
returns 0 on `[2, 4, 1, 3]` and 3 on `[1, 1, 1, 1]`. -/
theorem calculateFitness_eq_specConflictCount (g : Genome)
    (h : g.chromosome.length = g.numberN) :
    g.calculateFitness = specConflictCount g.chromosome := by
  unfold Genome.calculateFitness specConflictCount
  rw [h, card_filter_range_eq_countP]
  refine List.countP_congr fun i _ => ?_
  rw [decide_eq_true_eq]
  exact conflict_iff_specAttackedLater g h i

theorem calculateFitness_eq_specConflictCount_witness :
    (gRow.chromosome.length = gRow.numberN ∧
      Genome.calculateFitness gRow = specConflictCount gRow.chromosome) ∧
      (gSol.chromosome.length = gSol.numberN ∧
        Genome.calculateFitness gSol = specConflictCount gSol.chromosome) ∧
      Genome.calculateFitness gRow = 3 ∧ Genome.calculateFitness gSol = 0 :=
  ⟨⟨by decide, calculateFitness_eq_specConflictCount gRow (by decide)⟩,
   ⟨by decide, calculateFitness_eq_specConflictCount gSol (by decide)⟩,
   by decide, by decide⟩

/-- C4: evaluating `mutate` at the failing input — the genome
`[1, 1, 1, 1]` with the (legal, per the source's `randint(0, numberN - 1)`)
draws `index = 0`, `newValue = 0` — overwrites exactly one column but
writes the value 0, which lies outside the legal row range `[1, N]` used
by `initRandomPopulation`. -/
theorem mutate_writes_out_of_range_value :
    (Genome.mutate gRow 0 0).chromosome = [0, 1, 1, 1] ∧
      (0 : Int) ≤ 0 ∧ (0 : Int) ≤ (gRow.numberN : Int) - 1 ∧
      ¬ (1 ≤ (Genome.mutate gRow 0 0).chromosome.getD 0 0) := by
  decide

/-- C8: for genomes of equal size whose chromosomes have the invariant
length, both offspring of `crossOver` at any valid cut point keep
`len(chromosome) == size`, and `mutate` keeps it on any genome. -/
theorem crossOver_mutate_preserve_length (g1 g2 : Genome) (cut idx : Nat) (v : Int)
    (h1 : g1.chromosome.length = g1.numberN) (h2 : g2.chromosome.length = g2.numberN)
    (hN : g2.numberN = g1.numberN) (hcut : cut < g1.numberN) :
    ((g1.crossOver g2 cut).1.chromosome.length = (g1.crossOver g2 cut).1.numberN) ∧
      ((g1.crossOver g2 cut).2.chromosome.length = (g1.crossOver g2 cut).2.numberN) ∧
      ((g1.mutate idx v).chromosome.length = (g1.mutate idx v).numberN) ∧
      ((g2.mutate idx v).chromosome.length = (g2.mutate idx v).numberN) := by
  unfold Genome.crossOver Genome.mutate
  simp [List.length_set, h1, h2, hN]
  omega

theorem crossOver_mutate_preserve_length_witness :
    ((gSol.crossOver gRow 2).1.chromosome.length = (gSol.crossOver gRow 2).1.numberN) ∧
      ((gSol.crossOver gRow 2).2.chromosome.length = (gSol.crossOver gRow 2).2.numberN) ∧
      ((gSol.mutate 0 1).chromosome.length = (gSol.mutate 0 1).numberN) ∧
      ((gRow.mutate 0 1).chromosome.length = (gRow.mutate 0 1).numberN) :=
  crossOver_mutate_preserve_length gSol gRow 2 0 1 (by decide) (by decide)
    (by decide) (by decide)

/-- C10: the state-passing embedding of `calculateFitness` returns the
genome unchanged, its value agrees with the pure fitness function, and a
second call on the returned genome yields the same value. -/
theorem calculateFitness_pure (g : Genome) :
    g.calculateFitnessSt.2 = g ∧
      g.calculateFitnessSt.1 = g.calculateFitness ∧
      (g.calculateFitnessSt.2.calculateFitnessSt).1 = g.calculateFitnessSt.1 := by
  simp only [Genome.calculateFitnessSt, calcFitnessLoop_eq]
  simp [Genome.calculateFitness]

/-- Embedding of `self.generation.sort(key=lambda gen: gen.calculateFitness())`
(population.py lines 102, 181, 217): a stable sort ascending by fitness.
Python's list sort is an opaque stable sort; insertion sort is used as the
model. -/
def sortByFitness (l : List Genome) : List Genome :=
  List.insertionSort (fun a b => a.calculateFitness ≤ b.calculateFitness) l

/-- Embedding of the roulette weight `1.0 / float(x.calculateFitness())`
(population.py line 195): Python raises `ZeroDivisionError` when the
fitness is 0, modelled as `none`. -/
def invFitness (g : Genome) : Option ℚ :=
  if g.calculateFitness = 0 then none else some (1 / (g.calculateFitness : ℚ))

/-- Embedding of `map(lambda x: 1.0 / float(x.calculateFitness()), ...)`
(population.py lines 195-196): Python 2's `map` eagerly builds the whole
list, raising — `none` — as soon as any element has fitness 0. -/
def invFitnessList : List Genome → Option (List ℚ)
  | [] => some []
  | g :: rest =>
    match invFitness g, invFitnessList rest with
    | some p, some ps => some (p :: ps)
    | _, _ => none

/-- Embedding of the in-place accumulation loop (population.py lines
198-201): `sumP += proportions[i] / totalFitness; proportions[i] = sumP`,
producing the list of cumulative roulette sections. -/
def cumDiv (total : ℚ) : List ℚ → ℚ → List ℚ
  | [], _ => []
  | p :: rest, sumP => (sumP + p / total) :: cumDiv total rest (sumP + p / total)

/-- Embedding of `Population.selection(self)` (population.py lines
173-209), with the three random draws made explicit: `r1, r2` are the two
`randint(0, len(self.generation) - 1)` tournament draws and `rsel` is the
`random()` roulette draw.  The method sorts the generation by fitness,
removes the genome at the smaller tournament index as the first parent,
builds the inverse-fitness roulette over the remaining genomes
(`ZeroDivisionError`, i.e. `none`, if any remaining fitness is 0),
normalizes it to cumulative sections, and removes the first genome whose
section exceeds `rsel` as the second parent; if no section is ever entered
(in particular when no genomes remain) the second parent stays `None`.
The result is `(genome1, genome2, remaining generation)`; `none` models a
raised exception. -/
def Population.selection (gen : List Genome) (r1 r2 : Nat) (rsel : ℚ) :
    Option (Genome × Option Genome × List Genome) :=
  match (sortByFitness gen).get? (min r1 r2) with
  | none => none
  | some genome1 =>
    let remaining := (sortByFitness gen).eraseIdx (min r1 r2)
    match invFitnessList remaining with
    | none => none
    | some proportions =>
      match (cumDiv proportions.sum proportions 0).findIdx?
          (fun c => decide (rsel < c)) with
      | some i =>
        match remaining.get? i with
        | some genome2 => some (genome1, some genome2, remaining.eraseIdx i)
        | none => none
      | none => some (genome1, none, remaining)

/-- The random draws consumed by one iteration of the breeding loop in
`Population.evolve` (population.py lines 109-144): the two tournament
indices and the roulette draw passed to `selection`, the `random()` value
compared against `p_c`, the `crossOver` cut point, and for each child the
`random()` value compared against `p_m` together with the two `mutate`
draws. -/
structure IterRand where
  r1 : Nat
  r2 : Nat
  rsel : ℚ
  pcDraw : ℚ
  cut : Nat
  pmADraw : ℚ
  mutAIdx : Nat
  mutAVal : Int
  pmBDraw : ℚ
  mutBIdx : Nat
  mutBVal : Int

/-- Embedding of the `while len(next_generation) < self.fenotypes` breeding
loop of `Population.evolve` (population.py lines 109-144).  Each iteration
calls `selection` on the current pool, then either — when
`random() < p_c` — crosses the parents at the drawn cut point and mutates
each child when its `random() < p_m` draw fires, appending the two
children, or appends the two parents unchanged; both branches extend
`next_generation` by exactly two entries.  The second parent can be the
Python value `None` (hence `List (Option Genome)`): crossing with it
raises `AttributeError` (`none`), while the copy branch appends it as an
element.  The explicit list of per-iteration draws also serves as fuel;
running out of draws while the loop would continue is modelled as
`none`. -/
def breedLoop (p_c p_m : ℚ) (fenotypes : Nat) :
    List IterRand → List Genome → List (Option Genome) →
      Option (List (Option Genome) × List Genome)
  | [], pool, next =>
    if next.length < fenotypes then none else some (next, pool)
  | r :: rs, pool, next =>
    if next.length < fenotypes then
      match Population.selection pool r.r1 r.r2 r.rsel with
      | none => none
      | some (parent_a, parent_b, pool2) =>
        if r.pcDraw < p_c then
          match parent_b with
          | none => none
          | some pb =>
            let children := parent_a.crossOver pb r.cut
            let child_a :=
              if r.pmADraw < p_m then children.1.mutate r.mutAIdx r.mutAVal
              else children.1
            let child_b :=
              if r.pmBDraw < p_m then children.2.mutate r.mutBIdx r.mutBVal
              else children.2
            breedLoop p_c p_m fenotypes rs pool2 (next ++ [some child_a, some child_b])
        else
          breedLoop p_c p_m fenotypes rs pool2 (next ++ [some parent_a, parent_b])
    else some (next, pool)

/-- Embedding of the elitism block of `Population.evolve` (population.py
lines 101-103): when elitism is on, the generation is sorted by fitness and
its first `elite_len` genomes are popped into the next generation (the
model assumes `elite_len ≤ len(generation)`; the source raises `IndexError`
otherwise). -/
def elitismPhase (elitism : Bool) (elite_len : Nat) (gen : List Genome) :
    List (Option Genome) × List Genome :=
  if elitism then
    (((sortByFitness gen).take elite_len).map some, (sortByFitness gen).drop elite_len)
  else ([], gen)

/-- Embedding of one full generation step of `Population.evolve`
(population.py lines 97-155): the elitism block, the breeding loop, the
replacement of `self.generation` by `next_generation`, and the fitness
statistics `fitness = map(lambda x: x.calculateFitness(), ...)` followed by
`min(fitness)` — the statistics raise `AttributeError` (`none`) if the new
generation contains the Python value `None`, and `min([])` raises
`ValueError` (`none`) on an empty generation.  On success it returns the
new generation together with its minimum fitness. -/
def generationStep (p_c p_m : ℚ) (fenotypes : Nat) (elitism : Bool)
    (elite_len : Nat) (rands : List IterRand) (gen : List Genome) :
    Option (List (Option Genome) × Nat) :=
  match breedLoop p_c p_m fenotypes rands (elitismPhase elitism elite_len gen).2
      (elitismPhase elitism elite_len gen).1 with
  | none => none
  | some (next, _) =>
    match next.mapM (fun og => og.map Genome.calculateFitness) with
    | none => none
    | some fits =>
      match fits.min? with
      | none => none
      | some m => some (next, m)

/-- Embedding of the Python 2 comparison `rand_chromosome in population`
(population.py line 74): the candidate is a list of ints while the
population holds `Genome` instances, and `Genome` defines no `__eq__`, so
`list == Genome` is always `False` in Python 2 and the membership test
never succeeds. -/
def pyListEqGenome (_ : List Int) (_ : Genome) : Bool :=
  false

/-- The membership test `rand_chromosome in population`: `any` of the
element-wise Python equality above. -/
def chromInPopulation (chrom : List Int) (population : List Genome) : Bool :=
  population.any fun g => pyListEqGenome chrom g

/-- Embedding of the inner `while rand_chromosome in population` loop of
`initRandomPopulation` (population.py lines 74-75): while the membership
test succeeds, a fresh chromosome of `N` draws is taken from the random
stream.  Fuel makes the recursion structural; since `chromInPopulation` is
always `false` the loop in fact exits immediately. -/
def regenLoop (N : Nat) (population : List Genome) :
    Nat → List Int → List Int → List Int × List Int
  | 0, chrom, stream => (chrom, stream)
  | fuel + 1, chrom, stream =>
    if chromInPopulation chrom population then
      regenLoop N population fuel (stream.take N) (stream.drop N)
    else (chrom, stream)

/-- The outer `while len(population) < n_population` loop of
`initRandomPopulation`, accumulating the population: each iteration draws
`N` values `randint(1, N_chessboard)` from the stream as a candidate
chromosome, runs the regeneration loop against the population built so
far, and appends `Genome(rand_chromosome)` (whose `numberN` is the
chromosome's length). -/
def initRandomPopulationAux (N : Nat) :
    Nat → List Genome → List Int → List Genome
  | 0, population, _ => population
  | n + 1, population, stream =>
    initRandomPopulationAux N n
      (population ++
        [⟨(regenLoop N population stream.length (stream.take N) (stream.drop N)).1.length,
          (regenLoop N population stream.length (stream.take N) (stream.drop N)).1⟩])
      (regenLoop N population stream.length (stream.take N) (stream.drop N)).2

/-- Embedding of `Population.initRandomPopulation(self, N_chessboard,
n_population)` (population.py lines 61-77), with the stream of
`randint(1, N_chessboard)` draws made explicit. -/
def initRandomPopulation (N n : Nat) (stream : List Int) : List Genome :=
  initRandomPopulationAux N n [] stream

/-- Embedding of the `Population` instance state set up by `__init__`
(population.py lines 43-59). -/
structure PopulationT where
  fenotypes : Nat
  generation : List Genome
  elitism : Bool
  elite_len : Nat
  p_c : ℚ
  p_m : ℚ
deriving DecidableEq

/-- Embedding of `Population.__init__(self, N_chessboard, n_population,
elitism=False, elite_len=6, p_c=0.7, p_m=0.05)` (population.py lines
43-59).  The source body contains no parameter check and no `raise`
statement on any path — it only assigns the attributes and calls
`initRandomPopulation` — so the embedding always returns `Except.ok`. -/
def Population.initE (N_chessboard n_population : Nat) (elitism : Bool)
    (elite_len : Nat) (p_c p_m : ℚ) (stream : List Int) :
    Except String PopulationT :=
  Except.ok
    ⟨n_population, initRandomPopulation N_chessboard n_population stream,
     elitism, elite_len, p_c, p_m⟩

/-- Default value of the `elitism` parameter in the `__init__` signature
(population.py line 43). -/
def Population.elitismDefault : Bool := false

/-- Default value of the `elite_len` parameter in the `__init__` signature
(population.py line 43). -/
def Population.eliteLenDefault : Nat := 6

/-- Default value of the `p_c` parameter in the `__init__` signature
(population.py line 43): the float literal `0.7`, i.e. `7/10`. -/
def Population.pcDefault : ℚ := 7 / 10

/-- Default value of the `p_m` parameter in the `__init__` signature
(population.py line 43): the float literal `0.05`, i.e. `1/20`. -/
def Population.pmDefault : ℚ := 1 / 20

/-- C2: evaluating `selection` at the failing input — a generation holding
the zero-fitness solution `[2, 4, 1, 3]` next to `[1, 1, 1, 1]`, with both
tournament draws equal to 1 so the zero-fitness genome stays in the
roulette pool.  The inverse-fitness weighting computes `1.0 / float(0)` and
the call raises `ZeroDivisionError` (`none`) whatever the roulette draw,
instead of resolving the zero-fitness genome by an explicit rule. -/
theorem selection_zero_fitness_division_raises (rsel : ℚ) :
    Population.selection [gRow, gSol] 1 1 rsel = none := rfl

/-- C9: `selection` on a generation with exactly one genome does not raise:
the tournament (whose two index draws over a one-element list are
necessarily 0) removes and returns the sole genome as the first parent, the
roulette over the now-empty remainder never enters a section, and the
second parent is returned as `None`. -/
theorem selection_singleton_returns_none_partner (g : Genome) (rsel : ℚ) :
    Population.selection [g] 0 0 rsel = some (g, none, []) := rfl

/-- All-zero random draws for one breeding-loop iteration. -/
def iterZero : IterRand := ⟨0, 0, 0, 0, 0, 0, 0, 0, 0, 0, 0⟩

/-- C3 counterexample: with `fenotypes = 4`, elitism on and `elite_len = 3`
(so the odd remainder 1), the breeding loop run on the one remaining genome
appends a final pair `[parent, None]` and finishes with FIVE entries — the
next generation is not truncated to the target size 4 — after which the
whole generation step raises (`none`) at the fitness statistics because of
the `None` entry. -/
theorem breedLoop_overflow_example :
    breedLoop 0 0 4 [iterZero] [gRow] [some gRow, some gRow, some gRow] =
        some ([some gRow, some gRow, some gRow, some gRow, none], []) ∧
      generationStep 0 0 4 true 3 [iterZero] [gRow, gRow, gRow, gRow] = none :=
  ⟨rfl, rfl⟩

/-- C3 (amended): each iteration of the breeding loop extends the next
generation by exactly two entries and the loop stops as soon as the target
size is reached, so a completed loop yields
`start + 2 * ⌈(fenotypes - start) / 2⌉` entries: exactly `fenotypes` when
the deficit is even, and `fenotypes + 1` — one more than the target, never
truncated — when the deficit is odd. -/
theorem breedLoop_length_formula (p_c p_m : ℚ) (fenotypes : Nat)
    (rs : List IterRand) (pool : List Genome) (next res : List (Option Genome))
    (pool2 : List Genome)
    (h : breedLoop p_c p_m fenotypes rs pool next = some (res, pool2)) :
    res.length =
      if next.length < fenotypes
      then next.length + 2 * ((fenotypes - next.length + 1) / 2)
      else next.length := by
  induction rs generalizing pool next with
  | nil =>
    simp only [breedLoop] at h
    by_cases hl : next.length < fenotypes
    · rw [if_pos hl] at h
      exact absurd h (by simp)
    · rw [if_neg hl] at h
      rw [if_neg hl]
      simp only [Option.some.injEq, Prod.mk.injEq] at h
      rw [← h.1]
  | cons r rs ih =>
    simp only [breedLoop] at h
    by_cases hl : next.length < fenotypes
    · rw [if_pos hl] at h
      rw [if_pos hl]
      cases hsel : Population.selection pool r.r1 r.r2 r.rsel with
      | none =>
        rw [hsel] at h
        exact absurd h (by simp)
      | some t =>
        rw [hsel] at h
        obtain ⟨pa, pb, pool3⟩ := t
        dsimp only at h
        by_cases hpc : r.pcDraw < p_c
        · rw [if_pos hpc] at h
          cases pb with
          | none => exact absurd h (by simp)
          | some pbv =>
            have hres := ih _ _ h
            simp only [List.length_append, List.length_cons, List.length_nil]
              at hres
            by_cases h2 : next.length + 2 < fenotypes
            · rw [if_pos (by omega : next.length + (0 + 1 + 1) < fenotypes)]
                at hres
              rw [hres]
              omega
            · rw [if_neg (by omega : ¬ next.length + (0 + 1 + 1) < fenotypes)]
                at hres
              rw [hres]
              omega
        · rw [if_neg hpc] at h
          have hres := ih _ _ h
          simp only [List.length_append, List.length_cons, List.length_nil]
            at hres
          by_cases h2 : next.length + 2 < fenotypes
          · rw [if_pos (by omega : next.length + (0 + 1 + 1) < fenotypes)]
              at hres
            rw [hres]
            omega
          · rw [if_neg (by omega : ¬ next.length + (0 + 1 + 1) < fenotypes)]
              at hres
            rw [hres]
            omega
    · rw [if_neg hl] at h
      rw [if_neg hl]
      simp only [Option.some.injEq, Prod.mk.injEq] at h
      rw [← h.1]

theorem breedLoop_length_formula_witness :
    ([some gRow, some gRow, none] : List (Option Genome)).length =
      if ([some gRow] : List (Option Genome)).length < 2
      then ([some gRow] : List (Option Genome)).length +
        2 * ((2 - ([some gRow] : List (Option Genome)).length + 1) / 2)
      else ([some gRow] : List (Option Genome)).length :=
  breedLoop_length_formula 0 0 2 [iterZero] [gRow] [some gRow]
    [some gRow, some gRow, none] [] rfl

/-- C5: evaluating `initRandomPopulation` at the failing input — board size
2, population size 2, with random draws `1, 1, 1, 1` — produces two genomes
with the identical chromosome `[1, 1]`, although the number of distinct
chromosomes (`2 ^ 2 = 4`) exceeds the requested population size: the
uniqueness check `rand_chromosome in population` compares a list against
`Genome` instances and never succeeds, so duplicates are accepted. -/
theorem initRandomPopulation_duplicate_example :
    (initRandomPopulation 2 2 [1, 1, 1, 1]).map Genome.chromosome =
        [[1, 1], [1, 1]] ∧
      (2 : Nat) < 2 ^ 2 := by
  decide

/-- C6 counterexample: the constructor accepts a parameter set that is
invalid on every count the claim lists — population size 0, elitism on with
`elite_len = 7 > 0`, crossover probability `3/2 > 1` and mutation
probability `-1/2 < 0` — and returns a constructed population instead of
an error. -/
theorem initE_accepts_invalid_params :
    Population.initE 4 0 true 7 (3 / 2) (-(1 / 2)) [] =
        Except.ok ⟨0, [], true, 7, 3 / 2, -(1 / 2)⟩ ∧
      (Population.initE 4 0 true 7 (3 / 2) (-(1 / 2)) []).isOk = true :=
  ⟨rfl, rfl⟩

/-- C6 (amended): the constructor performs no validation at all: for every
parameter set — including non-positive sizes, probabilities outside
`[0, 1]` and `elite_len` exceeding the population size — it returns a
constructed population and never an error. -/
theorem initE_never_errors (N_chessboard n_population : Nat) (elitism : Bool)
    (elite_len : Nat) (p_c p_m : ℚ) (stream : List Int) :
    Population.initE N_chessboard n_population elitism elite_len p_c p_m stream =
      Except.ok ⟨n_population,
        initRandomPopulation N_chessboard n_population stream,
        elitism, elite_len, p_c, p_m⟩ := rfl

/-- C7 counterexample: the constructor defaults differ from the claimed
`elite_count = 5`, `crossover_probability = 0.75` and
`mutation_probability = 0.02`. -/
theorem population_defaults_ne_claim :
    Population.eliteLenDefault ≠ 5 ∧ Population.pcDefault ≠ 3 / 4 ∧
      Population.pmDefault ≠ 1 / 50 := by
  refine ⟨by decide, ?_, ?_⟩ <;>
    norm_num [Population.pcDefault, Population.pmDefault]

/-- C7 (amended): the constructor defaults are `elitism = False`,
`elite_len = 6`, `p_c = 0.7` and `p_m = 0.05`. -/
theorem population_defaults_values :
    Population.elitismDefault = false ∧ Population.eliteLenDefault = 6 ∧
      Population.pcDefault = 7 / 10 ∧ Population.pmDefault = 1 / 20 :=
  ⟨rfl, rfl, rfl, rfl⟩
